import Mathlib

/-!
Shallow embedding of the two bus engines of the repository
(src/twi.c, the two-wire master engine, and src/onewire.c, the
one-wire engine), with theorems checking the specification's claims.

The two-wire hardware peripheral is modelled as an oracle `TwiEnv`:
`status k` is the content of the status register TWSR observed after
the k-th busy-wait completes, and `input k` is the content of the data
register TWDR available to a read at that same point.  The engine
state `TwiState` carries the two module-level variables of twi.c
(`_twi_enabled`, `_twi_address`), the registers the code writes
(DDR, PORT, TWBR, TWCR), a counter `step` of completed busy-waits,
the trace `sent` of bytes loaded into TWDR for transmission, and the
trace `stores` of (index, byte) writes into the caller's buffer.
-/

structure TwiEnv where
  status : Nat → Nat
  input : Nat → Nat

structure TwiState where
  enabled : Nat
  address : Nat
  ddr : Nat
  port : Nat
  twbr : Nat
  twcr : Nat
  step : Nat
  sent : List Nat
  stores : List (Nat × Nat)
deriving DecidableEq

/-- The reset state: both module variables of twi.c start at 0. -/
def twi0 : TwiState := ⟨0, 0, 0, 0, 0, 0, 0, [], []⟩

/-- `TWSR & TWI_PRESCALER_MASK` (twi.c line 88): mask the prescaler bits. -/
def twi_mask (x : Nat) : Nat := Nat.land x 0xFC

/-- One hardware interaction cycle: write `ctrl` to TWCR (optionally after
loading a byte into TWDR for transmission), busy-wait for the interrupt
flag, and read back the masked status register and the data register.
This is the common shape of every numbered step in twi.c. -/
def twi_cycle (ctrl : Nat) (load : Option Nat) (env : TwiEnv) (s : TwiState) :
    Nat × Nat × TwiState :=
  (twi_mask (env.status s.step), env.input s.step % 256,
    { s with twcr := ctrl, sent := s.sent ++ load.toList, step := s.step + 1 })

/-- twi.c lines 122-145, `twi_enable`. -/
def twi_enable (s : TwiState) : TwiState :=
  if s.enabled ≠ 0 then s else
  { s with enabled := 1,
           ddr := Nat.land s.ddr 0xCF,
           port := Nat.lor s.port 0x30,
           twbr := ((16000000 / 100000) - 16) / 2,
           twcr := Nat.lor s.twcr 0x45 }

/-- twi.c lines 149-156, `twi_disable`. -/
def twi_disable (s : TwiState) : TwiState :=
  if s.enabled = 0 then s else
  { s with enabled := 0,
           twcr := Nat.land s.twcr 0xBA,
           port := Nat.land s.port 0xCF }

/-- twi.c lines 160-163, `twi_is_enabled`. -/
def twi_is_enabled (s : TwiState) : Nat := s.enabled

/-- twi.c lines 169-193, `twi_open`: store the address, send a start
condition (expect status 0x08), then transmit SLA+W (expect 0x18). -/
def twi_open (address : Nat) (env : TwiEnv) (s0 : TwiState) : Nat × TwiState :=
  let s := { s0 with address := address % 256 }
  let c1 := twi_cycle 0xA4 none env s
  if c1.1 ≠ 0x08 then (0, c1.2.2) else
  let c2 := twi_cycle 0x84 (some (c1.2.2.address * 2 % 256)) env c1.2.2
  if c2.1 ≠ 0x18 then (0, c2.2.2) else
  (1, c2.2.2)

/-- twi.c lines 197-200, `twi_close`: write a stop condition to TWCR. -/
def twi_close (s : TwiState) : TwiState := { s with twcr := 0x94 }

/-- twi.c lines 206-221, `twi_write_ch`: transmit one byte, expect
status 0x28 (MT data acknowledged). -/
def twi_write_ch (data : Nat) (env : TwiEnv) (s : TwiState) : Nat × TwiState :=
  let c := twi_cycle 0x84 (some (data % 256)) env s
  if c.1 ≠ 0x28 then (0, c.2.2) else (1, c.2.2)

/-- The loop of twi.c lines 230-234.  Note that the source never
advances `ptr`, so every iteration transmits `*ptr = data[0]`; the
embedding reproduces that. -/
def twi_write_str_loop (data : List Nat) (env : TwiEnv) : Nat → TwiState → Nat × TwiState
  | 0, s => (1, s)
  | fuel + 1, s =>
    let r := twi_write_ch (data.headD 0) env s
    if r.1 = 0 then (0, r.2) else twi_write_str_loop data env fuel r.2

/-- twi.c lines 225-236, `twi_write_str`. -/
def twi_write_str (data : List Nat) (n : Int) (env : TwiEnv) (s : TwiState) :
    Nat × TwiState :=
  twi_write_str_loop data env n.toNat s

/-- twi.c lines 246-279, `twi_register`: transmit the register pointer
(expect 0x28), send a repeated start (expect 0x10), transmit SLA+R
(expect 0x40). -/
def twi_register (reg : Nat) (env : TwiEnv) (s : TwiState) : Nat × TwiState :=
  let c1 := twi_cycle 0x84 (some (reg % 256)) env s
  if c1.1 ≠ 0x28 then (0, c1.2.2) else
  let c2 := twi_cycle 0xA4 none env c1.2.2
  if c2.1 ≠ 0x10 then (0, c2.2.2) else
  let c3 := twi_cycle 0x84 (some ((c2.2.2.address * 2 + 1) % 256)) env c2.2.2
  if c3.1 ≠ 0x40 then (0, c3.2.2) else
  (1, c3.2.2)

/-- twi.c lines 283-299, `twi_read_ch`.  The result of `twi_register`
is discarded, exactly as in the source (line 285 ignores its return
value); the function then performs the NACK read cycle regardless. -/
def twi_read_ch (reg : Nat) (env : TwiEnv) (s : TwiState) : Nat × TwiState :=
  let r0 := twi_register reg env s
  let c := twi_cycle 0x84 none env r0.2
  if c.1 ≠ 0x58 then (0, c.2.2) else
  (1, { c.2.2 with stores := c.2.2.stores ++ [(0, c.2.1)] })

/-- The ACK loop of twi.c lines 312-318: `i` tracks the offset of `ptr`
from the start of the caller's buffer. -/
def twi_read_str_loop (env : TwiEnv) : Nat → Nat → TwiState → Nat × Nat × TwiState
  | 0, i, s => (1, i, s)
  | fuel + 1, i, s =>
    let c := twi_cycle 0xC4 none env s
    if c.1 ≠ 0x50 then (0, i, c.2.2)
    else twi_read_str_loop env fuel (i + 1)
      { c.2.2 with stores := c.2.2.stores ++ [(i, c.2.1)] }

/-- twi.c lines 307-325, `twi_read_str`.  As in the source, the result
of `twi_register` is discarded, the loop runs for `c = 0 .. n-2`, and
the trailing NACK read (lines 319-322) is performed unconditionally
afterwards, storing through `ptr` wherever it points. -/
def twi_read_str (reg : Nat) (n : Int) (env : TwiEnv) (s : TwiState) :
    Nat × TwiState :=
  let r0 := twi_register reg env s
  let l := twi_read_str_loop env (n - 1).toNat 0 r0.2
  if l.1 = 0 then (0, l.2.2) else
  let c := twi_cycle 0x84 none env l.2.2
  if c.1 ≠ 0x58 then (0, c.2.2) else
  (1, { c.2.2 with stores := c.2.2.stores ++ [(l.2.1, c.2.1)] })

/-!
One-wire engine (src/onewire.c).  The bus is modelled by the oracle
`OwiEnv`: `sample k` is the level of the line (true = high) at the
k-th time the pin is sampled — presence detection and every read time
slot each sample the pin exactly once, and write slots never sample it.
`OwiState` counts the samples taken so far and records the trace of
bits driven onto the bus by write slots, plus the number of reset
pulses issued.
-/

structure OwiEnv where
  sample : Nat → Bool

structure OwiState where
  k : Nat
  writes : List Nat
  resets : Nat
deriving DecidableEq

/-- The initial one-wire trace state. -/
def owi0 : OwiState := ⟨0, [], 0⟩

/-- onewire.c lines 149-161, `owi_crc`, one iteration of the loop on
uint8 values: feedback from the low bits, shift, feed back 0x8C. -/
def owi_crc_loop : Nat → Nat → Nat → Nat
  | 0, _, crc => crc
  | fuel + 1, databyte, crc =>
    let feedback := Nat.land (Nat.xor crc databyte) 0x01
    owi_crc_loop fuel (databyte / 2) (Nat.xor (crc / 2) (0x8C * feedback))

/-- onewire.c lines 149-161, `owi_crc`: the Dallas/Maxim CRC-8 step for
one data byte with seed `crc`. -/
def owi_crc (databyte crc : Nat) : Nat :=
  owi_crc_loop 8 (databyte % 256) (crc % 256)

/-- The chained CRC of a byte string: each step feeds the previous
result back in as the seed, as the note above owi_crc describes and as
the loop in onewire.c line 371 does. -/
def owi_crc_chain (bytes : List Nat) (seed : Nat) : Nat :=
  bytes.foldl (fun c b => owi_crc b c) seed

/-- onewire.c lines 194-200, `owi_write_1`: drives the slot for a 1 bit;
no pin sample is taken. -/
def owi_write_1 (s : OwiState) : OwiState := { s with writes := s.writes ++ [1] }

/-- onewire.c lines 209-215, `owi_write_0`. -/
def owi_write_0 (s : OwiState) : OwiState := { s with writes := s.writes ++ [0] }

/-- onewire.c lines 226-239, `owi_read_bit`: generates a read slot and
samples the pin once; a high line reads as 1. -/
def owi_read_bit (env : OwiEnv) (s : OwiState) : Nat × OwiState :=
  ((if env.sample s.k then 1 else 0), { s with k := s.k + 1 })

/-- onewire.c lines 247-263, `owi_detect_presence`: reset pulse, then one
pin sample; a low line means a device answered with a presence pulse. -/
def owi_detect_presence (env : OwiEnv) (s : OwiState) : Nat × OwiState :=
  ((if env.sample s.k then 0 else 1),
    { s with k := s.k + 1, resets := s.resets + 1 })

/-- The loop of onewire.c lines 277-287: write the bits of `data`
selected by the walking mask, least significant first. -/
def owi_write_byte_loop (data : Nat) : Nat → Nat → OwiState → OwiState
  | _, 0, s => s
  | c, fuel + 1, s =>
    owi_write_byte_loop data (c + 1) fuel
      (if data.testBit c then owi_write_1 s else owi_write_0 s)

/-- onewire.c lines 275-288, `owi_write_byte`: eight bit slots, lsb first. -/
def owi_write_byte (data : Nat) (s : OwiState) : OwiState :=
  owi_write_byte_loop (data % 256) 0 8 s

/-- The loop of onewire.c lines 300-306 (also lines 362-368): read eight
bits, lsb first, or-ing each 1 into the accumulator at the mask position. -/
def owi_read_byte_loop (env : OwiEnv) : Nat → Nat → Nat → OwiState → Nat × OwiState
  | _, 0, acc, s => (acc, s)
  | c, fuel + 1, acc, s =>
    let r := owi_read_bit env s
    owi_read_byte_loop env (c + 1) fuel
      (if r.1 = 1 then Nat.lor acc (2 ^ c) else acc) r.2

/-- onewire.c lines 296-309, `owi_read_byte`. -/
def owi_read_byte (env : OwiEnv) (s : OwiState) : Nat × OwiState :=
  owi_read_byte_loop env 0 8 0 s

/-- onewire.c lines 321-324, `owi_is_busy`. -/
def owi_is_busy (env : OwiEnv) (s : OwiState) : Nat × OwiState :=
  let r := owi_read_bit env s
  ((if r.1 = 0 then 1 else 0), r.2)

/-- The outer loop of onewire.c lines 362-368: read `count` bytes in a
row into a list (each byte exactly as the nested mask loop reads it). -/
def owi_read_bytes (env : OwiEnv) : Nat → OwiState → List Nat × OwiState
  | 0, s => ([], s)
  | count + 1, s =>
    let r := owi_read_byte env s
    let rest := owi_read_bytes env count r.2
    (r.1 :: rest.1, rest.2)

/-- The eight bytes the read loop of `owi_read_rom` obtains once presence
has been detected and the READ ROM command sent, as a function of the
oracle and the entry state. -/
def owi_rom_response (env : OwiEnv) (s : OwiState) : List Nat :=
  (owi_read_bytes env 8 (owi_write_byte 0x33 (owi_detect_presence env s).2)).1

/-- onewire.c lines 339-378, `owi_read_rom`.  The caller's destination
array is modelled as a list: the copy loop of line 375 replaces its
first eight entries.  On the no-presence path the function returns 0;
on a CRC mismatch it returns the computed CRC itself (line 372); both
leave the destination untouched. -/
def owi_read_rom (env : OwiEnv) (rom_array : List Nat) (s : OwiState) :
    Nat × List Nat × OwiState :=
  let p := owi_detect_presence env s
  if p.1 = 0 then (0, rom_array, p.2) else
  let s1 := owi_write_byte 0x33 p.2
  let r := owi_read_bytes env 8 s1
  let crc := owi_crc_chain (r.1.take 7) 0
  if crc ≠ r.1.getD 7 0 then (crc, rom_array, r.2) else
  (1, r.1 ++ rom_array.drop 8, r.2)

/-- onewire.c lines 389-393, `owi_match_rom`. -/
def owi_match_rom (romcode_array : List Nat) (s : OwiState) : OwiState :=
  (romcode_array.take 8).foldl (fun t b => owi_write_byte b t)
    (owi_write_byte 0x55 s)

/-- onewire.c lines 401-404, `owi_skip_rom`. -/
def owi_skip_rom (s : OwiState) : OwiState := owi_write_byte 0xCC s

/-- onewire.c lines 424-452, `owi_alarm_search`: presence, the alarm
search command, two response bits; both equal means no response (the
XOR at line 446), otherwise the first bit is written back and 1
returned. -/
def owi_alarm_search (env : OwiEnv) (s : OwiState) : Nat × OwiState :=
  let p := owi_detect_presence env s
  if p.1 = 0 then (0, p.2) else
  let s1 := owi_write_byte 0xEC p.2
  let r1 := owi_read_bit env s1
  let r2 := owi_read_bit env r1.2
  if Nat.xor r1.1 r2.1 = 0 then (0, r2.2) else
  (1, if r1.1 = 0 then owi_write_0 r2.2 else owi_write_1 r2.2)

/-!
Concrete oracle fixtures used by the closed theorems below.
-/

/-- A two-wire oracle whose every status is 0x28 (data acknowledged),
so every write step succeeds. -/
def twi_env_ack : TwiEnv := ⟨fun _ => 0x28, fun _ => 0⟩

/-- A two-wire oracle whose first status is 0x00 (an unexpected code at
the register-pointer write step) and whose later statuses are 0x58
(read data, NACK returned). -/
def twi_env_badreg : TwiEnv := ⟨fun k => if k = 0 then 0 else 0x58, fun _ => 0xAB⟩

/-- A two-wire oracle that cooperates with a register-selected read of a
single byte: 0x28 (register pointer acknowledged), 0x10 (repeated
start), 0x40 (SLA+R acknowledged), then 0x58 (data read, NACK). -/
def twi_env_read : TwiEnv :=
  ⟨fun k => if k = 0 then 0x28 else if k = 1 then 0x10 else if k = 2 then 0x40 else 0x58,
   fun _ => 5⟩

/-- A one-wire bus held low at every sample: presence is detected and
every bit reads as 0. -/
def owi_env_low : OwiEnv := ⟨fun _ => false⟩

/-- A one-wire bus that answers presence, then responds 0 to the first
read slot and 1 to the second (sample index 2 is the only high one). -/
def owi_env_alarm : OwiEnv := ⟨fun k => k = 2⟩

/-- The pin samples encoding a list of response bytes, lsb first, after
one presence sample held low. -/
def samplesOfBytes (bs : List Nat) : List Bool :=
  (bs.map (fun b => (List.range 8).map fun i => b.testBit i)).flatten

/-- A one-wire bus whose eight response bytes are 0x51,0,0,0,0,0,0,0:
the chained CRC of the first seven is 1 while the eighth byte is 0, a
CRC mismatch whose computed CRC equals the success value 1. -/
def owi_env_crc1 : OwiEnv :=
  ⟨fun k => (false :: samplesOfBytes [0x51, 0, 0, 0, 0, 0, 0, 0]).getD k false⟩

/-- A one-wire bus whose eight response bytes are 0,0,0,0,0,0,0,1: the
chained CRC of the first seven is 0 while the eighth byte is 1, a CRC
mismatch whose computed CRC equals 0, the no-presence failure value. -/
def owi_env_crc0 : OwiEnv :=
  ⟨fun k => (false :: samplesOfBytes [0, 0, 0, 0, 0, 0, 0, 1]).getD k false⟩

/-!
Helper lemmas shared by several proofs.
-/

theorem owi_write_byte_alarm_cmd (s : OwiState) :
    owi_write_byte 0xEC s = { s with writes := s.writes ++ [0, 0, 1, 1, 0, 1, 1, 1] } := by
  simp +decide [owi_write_byte, owi_write_byte_loop, owi_write_1, owi_write_0]

/-!
Claim theorems.
-/

/-- Claim C6: chaining `owi_crc` with seed 0 over the byte 0x28 followed by
the bytes 0x6E, 0x38, 0xDD, 0x06, 0x00, 0x00, each step feeding the previous
result back in as the seed, yields exactly 0x39. -/
theorem owi_crc_fixture_vector :
    owi_crc 0x00 (owi_crc 0x00 (owi_crc 0x06 (owi_crc 0xDD
      (owi_crc 0x38 (owi_crc 0x6E (owi_crc 0x28 0)))))) = 0x39 := by decide

/-- Claim C8: `twi_enable` is idempotent — from any engine state, enabling
twice leaves exactly the state enabling once does — and `twi_disable` on a
state whose enabled flag is already clear changes nothing. -/
theorem twi_enable_disable_idem (s : TwiState) :
    twi_enable (twi_enable s) = twi_enable s ∧
    (s.enabled = 0 → twi_disable s = s) := by
  constructor
  · by_cases h : s.enabled = 0
    · simp [twi_enable, h]
    · simp [twi_enable, h]
  · intro h
    simp [twi_disable, h]

/-- Claim C8 witness: the double enable and the no-op disable at the reset
state. -/
theorem twi_enable_disable_idem_witness :
    twi_enable (twi_enable twi0) = twi_enable twi0 ∧ twi_disable twi0 = twi0 :=
  ⟨(twi_enable_disable_idem twi0).1, (twi_enable_disable_idem twi0).2 rfl⟩

/-- Claim C10: `twi_open` overwrites the persisted connection address with
its argument on every path — for every address, every oracle behaviour and
every prior state, including both failure paths, the state it returns
remembers the new address. -/
theorem twi_open_overwrites_address (a : Nat) (env : TwiEnv) (s : TwiState) :
    (twi_open a env s).2.address = a % 256 := by
  simp only [twi_open, twi_cycle]
  split
  · rfl
  · split <;> rfl

/-- Claim C7: `twi_open` returns 1 exactly when the oracle reports the masked
status 0x08 (start condition sent) at its first wait and 0x18 (address+write
acknowledged) at its second; when the first status differs it returns before
ever loading the address byte for transmission, and when only the second
differs the address byte is the one and only byte it transmitted. -/
theorem twi_open_status_check (a : Nat) (env : TwiEnv) (s : TwiState) :
    (twi_open a env s).1 =
      (if twi_mask (env.status s.step) = 0x08 ∧ twi_mask (env.status (s.step + 1)) = 0x18
        then 1 else 0) ∧
    (twi_open a env s).2.sent =
      s.sent ++ (if twi_mask (env.status s.step) = 0x08 then [a % 256 * 2 % 256] else []) := by
  by_cases h1 : twi_mask (env.status s.step) = 0x08
  · by_cases h2 : twi_mask (env.status (s.step + 1)) = 0x18
    · simp [twi_open, twi_cycle, h1, h2]
    · simp [twi_open, twi_cycle, h1, h2]
  · simp [twi_open, twi_cycle, h1]

/-- Claim C2: the claim reads that the c-th call of the write loop transmits
data[c].  It does not: twi.c lines 230-234 never advance `ptr`, so every
iteration transmits data[0].  At the failing input data = [0x41, 0x42],
n = 2 with an all-acknowledging oracle the engine reports success after
transmitting 0x41 twice, never 0x42. -/
theorem twi_write_str_sends_first_byte_only :
    (twi_write_str [0x41, 0x42] 2 twi_env_ack twi0).1 = 1 ∧
    (twi_write_str [0x41, 0x42] 2 twi_env_ack twi0).2.sent = [0x41, 0x41] := by decide

/-- Claim C1: the claim reads that a status mismatch at any step, including
the steps inside `twi_register`, aborts the enclosing read with failure.
It does not: twi.c lines 285 and 309 discard the return value of
`twi_register`.  With an oracle whose first status is unexpected (so
`twi_register` itself fails at the register-pointer write) but whose later
statuses cooperate, both `twi_read_ch` and `twi_read_str` still perform the
final read and return success. -/
theorem twi_read_ignores_register_status :
    twi_mask (twi_env_badreg.status 0) ≠ 0x28 ∧
    (twi_register 0x07 twi_env_badreg twi0).1 = 0 ∧
    (twi_read_ch 0x07 twi_env_badreg twi0).1 = 1 ∧
    (twi_read_str 0x07 1 twi_env_badreg twi0).1 = 1 := by decide

/-- Claim C9: for any count n ≤ 0 the acknowledge loop of `twi_read_str`
runs zero times, yet the trailing not-acknowledge read still executes; when
the oracle cooperates up to that final step the function stores one byte at
buffer offset 0 — an out-of-bounds store for a zero-length caller buffer —
and returns success. -/
theorem twi_read_str_writes_without_buffer (reg : Nat) (n : Int) (env : TwiEnv)
    (hn : n ≤ 0)
    (h0 : twi_mask (env.status 0) = 0x28) (h1 : twi_mask (env.status 1) = 0x10)
    (h2 : twi_mask (env.status 2) = 0x40) (h3 : twi_mask (env.status 3) = 0x58) :
    (twi_read_str reg n env twi0).1 = 1 ∧
    (twi_read_str reg n env twi0).2.stores = [(0, env.input 3 % 256)] := by
  have hf : (n - 1).toNat = 0 := Int.toNat_eq_zero.mpr (by omega)
  constructor <;>
    simp [twi_read_str, twi_register, twi_cycle, twi_read_str_loop, twi0, hf, h0, h1, h2, h3]

/-- Claim C9 witness: the cooperative read oracle with n = 0 stores the
oracle's byte at offset 0 and reports success. -/
theorem twi_read_str_writes_without_buffer_witness :
    (0 : Int) ≤ 0 ∧ twi_mask (twi_env_read.status 0) = 0x28 ∧
    twi_mask (twi_env_read.status 1) = 0x10 ∧ twi_mask (twi_env_read.status 2) = 0x40 ∧
    twi_mask (twi_env_read.status 3) = 0x58 ∧
    ((twi_read_str 0x07 0 twi_env_read twi0).1 = 1 ∧
     (twi_read_str 0x07 0 twi_env_read twi0).2.stores = [(0, twi_env_read.input 3 % 256)]) :=
  ⟨by decide, by decide, by decide, by decide, by decide,
   twi_read_str_writes_without_buffer 0x07 0 twi_env_read (by decide) (by decide) (by decide)
     (by decide) (by decide)⟩

/-- Claim C3 counterexample: on the all-low bus the reset detects presence
and both response bits sample as 0, yet `owi_alarm_search` returns 0 (no
alarm), where the claim requires the response pair (0,0) to yield 1 (alarm
present) with the first bit written back. -/
theorem owi_alarm_search_both_low :
    (owi_detect_presence owi_env_low owi0).1 = 1 ∧
    owi_env_low.sample 1 = false ∧ owi_env_low.sample 2 = false ∧
    (owi_alarm_search owi_env_low owi0).1 = 0 := by decide

/-- Claim C3 (amended): after a successful presence detection and the alarm
search command, equal response bits — (1,1) or (0,0) — make
`owi_alarm_search` return 0 with nothing written after the command, and
unequal bits — (0,1) or (1,0) — make it return 1 and write the first
sampled bit back; when presence detection fails it returns 0 without
sending the command (no write at all). -/
theorem owi_alarm_search_bits (env : OwiEnv) (s : OwiState) :
    (env.sample s.k = true →
      owi_alarm_search env s = (0, { s with k := s.k + 1, resets := s.resets + 1 })) ∧
    (env.sample s.k = false →
      (env.sample (s.k + 1) = env.sample (s.k + 2) →
        (owi_alarm_search env s).1 = 0 ∧
        (owi_alarm_search env s).2.writes = s.writes ++ [0, 0, 1, 1, 0, 1, 1, 1]) ∧
      (env.sample (s.k + 1) ≠ env.sample (s.k + 2) →
        (owi_alarm_search env s).1 = 1 ∧
        (owi_alarm_search env s).2.writes =
          s.writes ++ [0, 0, 1, 1, 0, 1, 1, 1] ++ [if env.sample (s.k + 1) then 1 else 0])) := by
  constructor
  · intro h
    simp [owi_alarm_search, owi_detect_presence, h]
  · intro h
    constructor <;> intro hbits <;>
      by_cases h1 : env.sample (s.k + 1) <;> by_cases h2 : env.sample (s.k + 2) <;>
        simp [h1, h2] at hbits ⊢ <;>
        simp +decide [owi_alarm_search, owi_detect_presence, owi_read_bit,
          owi_write_byte_alarm_cmd, owi_write_1, owi_write_0, h, h1, h2]

/-- Claim C3 witness: the bus answering presence and the response bits
(0,1): alarm present, the sampled 0 re-asserted after the command. -/
theorem owi_alarm_search_bits_witness :
    owi_env_alarm.sample 0 = false ∧
    ((owi_alarm_search owi_env_alarm owi0).1 = 1 ∧
     (owi_alarm_search owi_env_alarm owi0).2.writes =
       [] ++ [0, 0, 1, 1, 0, 1, 1, 1] ++ [if owi_env_alarm.sample 1 then 1 else 0]) := by
  refine ⟨by decide, ?_⟩
  exact ((owi_alarm_search_bits owi_env_alarm owi0).2 (by decide)).2 (by decide)

/-- Claim C4: `owi_read_rom` leaves the caller's destination untouched on
both failing paths — no presence detected, or the chained CRC of the first
seven response bytes differing from the eighth — and on the success path
replaces its first eight entries with exactly the eight bytes read from the
bus, in order. -/
theorem owi_read_rom_frame (env : OwiEnv) (rom : List Nat) (s : OwiState) :
    ((owi_detect_presence env s).1 = 0 →
      owi_read_rom env rom s = (0, rom, (owi_detect_presence env s).2)) ∧
    ((owi_detect_presence env s).1 = 1 →
      (owi_crc_chain ((owi_rom_response env s).take 7) 0 ≠ (owi_rom_response env s).getD 7 0 →
        (owi_read_rom env rom s).2.1 = rom) ∧
      (owi_crc_chain ((owi_rom_response env s).take 7) 0 = (owi_rom_response env s).getD 7 0 →
        (owi_read_rom env rom s).1 = 1 ∧
        (owi_read_rom env rom s).2.1 = owi_rom_response env s ++ rom.drop 8)) := by
  constructor
  · intro h
    simp [owi_read_rom, h]
  · intro h
    have h0 : ¬((owi_detect_presence env s).1 = 0) := by simp [h]
    constructor <;> intro hc <;>
      simp [owi_rom_response] at hc <;>
      simp [owi_read_rom, owi_rom_response, h0, hc]

/-- Claim C4 witness: the all-low bus reads eight zero bytes whose CRC
checks out, and the nine-entry destination keeps only its ninth entry. -/
theorem owi_read_rom_frame_witness :
    (owi_detect_presence owi_env_low owi0).1 = 1 ∧
    owi_crc_chain ((owi_rom_response owi_env_low owi0).take 7) 0 =
      (owi_rom_response owi_env_low owi0).getD 7 0 ∧
    ((owi_read_rom owi_env_low [1, 2, 3, 4, 5, 6, 7, 8, 9] owi0).1 = 1 ∧
     (owi_read_rom owi_env_low [1, 2, 3, 4, 5, 6, 7, 8, 9] owi0).2.1 =
       owi_rom_response owi_env_low owi0 ++ [9]) := by
  refine ⟨by decide, by decide, ?_⟩
  exact ((owi_read_rom_frame owi_env_low [1, 2, 3, 4, 5, 6, 7, 8, 9] owi0).2
    (by decide)).2 (by decide)

/-- Claim C5: on the presence-detected CRC-mismatch path `owi_read_rom`
returns the computed chained CRC itself, not a dedicated failure sentinel;
for the concrete mismatching response 0x51,0,0,0,0,0,0,0 that value is 1,
the success value, and for the mismatching response 0,0,0,0,0,0,0,1 it is
0, the no-presence failure value — the non-zero guarantee holds only for
some responses, not all. -/
theorem owi_read_rom_crc_return :
    (∀ (env : OwiEnv) (rom : List Nat) (s : OwiState),
      (owi_detect_presence env s).1 = 1 →
      owi_crc_chain ((owi_rom_response env s).take 7) 0 ≠ (owi_rom_response env s).getD 7 0 →
      (owi_read_rom env rom s).1 = owi_crc_chain ((owi_rom_response env s).take 7) 0) ∧
    (owi_crc_chain ((owi_rom_response owi_env_crc1 owi0).take 7) 0 ≠
        (owi_rom_response owi_env_crc1 owi0).getD 7 0 ∧
      (owi_read_rom owi_env_crc1 [9, 9, 9, 9, 9, 9, 9, 9] owi0).1 = 1) ∧
    (owi_crc_chain ((owi_rom_response owi_env_crc0 owi0).take 7) 0 ≠
        (owi_rom_response owi_env_crc0 owi0).getD 7 0 ∧
      (owi_read_rom owi_env_crc0 [9, 9, 9, 9, 9, 9, 9, 9] owi0).1 = 0) := by
  refine ⟨fun env rom s h hc => ?_, ⟨by decide, by decide⟩, ⟨by decide, by decide⟩⟩
  have h0 : ¬((owi_detect_presence env s).1 = 0) := by simp [h]
  simp [owi_rom_response] at hc ⊢
  simp [owi_read_rom, h0, hc]

/-- Claim C5 witness: the mismatching response whose computed CRC is 1,
instantiating the universal mismatch-path equation. -/
theorem owi_read_rom_crc_return_witness :
    (owi_read_rom owi_env_crc1 [] owi0).1 =
      owi_crc_chain ((owi_rom_response owi_env_crc1 owi0).take 7) 0 :=
  owi_read_rom_crc_return.1 owi_env_crc1 [] owi0 (by decide) (by decide)
